import Mathlib

/-!
Verification of the StackClub tutorial-notebook repository.

The repository consists of five Jupyter notebooks:
  NB1  `lsst_stack_deblender`  (src/unnamed/part_000, first document)
  NB2  scarlet introduction / deblending (src/unnamed/part_000, second document)
  NB3  `Calexp_guided_tour` (src/unnamed/part_000, third document)
  NB4  Gen-2 Butler data access (src/unnamed/part_000, fourth document)
  NB5  `DataInventory.ipynb` (src/Graveyard)

This file shallowly embeds the code of these notebooks: the two original
helper functions (`showRGB`, `makeCatalog`), the repository-discovery shell
pipelines of NB5, the dataflow of the NB1 processing pipeline, the
weight-setting cell of NB2, and a statement-level model of every code cell
in the five notebooks (used for the repository-wide structural claims about
exception handling, filesystem writes and process creation).
-/

set_option maxRecDepth 100000

namespace StackClub

/-! ## Python runtime errors -/

/-- A Python exception: either a generic exception or a `NameError` on an
undefined module-level name. -/
inductive PyErr where
  | exc (msg : String)
  | nameError (name : String)
  deriving DecidableEq

/-! ## The `makeCatalog` helper (NB2, detection cell)

```python
def makeCatalog(cube, lvl=3, wave=True):
    #Coadd all bands
    detect_image = np.sum(cube, axis=0)
    if np.size(detect_image.shape) == 3:
        if wave:
            wave_detect = Starlet(detect_image.mean(axis=0), lvl=4).coefficients
            wave_detect[:, -1, :, :] = 0
            detect = Starlet(coefficients=wave_detect).image
        else:
            detect = detect_image.mean(axis=0)
    else:
        if wave:
            wave_detect = Starlet(detect_image).coefficients
            detect = wave_detect[0][0]
        else:
            detect = detect_image
    bkg = sep.Background(detect)
    catalog = sep.extract(detect, lvl, err=bkg.globalrms)
    if len(datas) ==1:
        bg_rms = mad_wavelet(datas[0].images)
    else:
        bg_rms = []
        for data in datas:
            bg_rms.append(mad_wavelet(data.images))
    return catalog
```

The numpy / scarlet / sep operations are third-party and are kept opaque
(fields of `WaveletExt` / `SepModule`); the control flow, the name
resolution of the module-level identifiers `sep`, `datas`, `mad_wavelet`
(none of which is a parameter, and none of which the notebook ever binds)
and the returned value are translated faithfully. -/

/-- A numpy array, kept abstract except for its shape (needed for the
`np.size(detect_image.shape) == 3` test). -/
structure NDArray where
  shape : List Nat
  tag : Nat
  deriving DecidableEq, Inhabited

/-- Number of dimensions of an array: `np.size(a.shape)`. -/
def ndim (a : NDArray) : Nat :=
  a.shape.length

/-- The opaque value of `Starlet(...).coefficients`. -/
structure Coeffs where
  tag : Nat
  deriving DecidableEq, Inhabited

/-- The opaque result of `sep.Background`, exposing `globalrms`. -/
structure Background where
  globalrms : ℚ
  deriving DecidableEq

/-- The opaque sextractor catalog returned by `sep.extract`. -/
structure Catalog where
  tag : Nat
  deriving DecidableEq, Inhabited

/-- A scarlet `Data` object as used by `mad_wavelet(data.images)`. -/
structure DataObj where
  images : NDArray
  deriving DecidableEq, Inhabited

/-- The third-party `sep` module interface used by `makeCatalog`:
`sep.Background(detect)` and `sep.extract(detect, lvl, err)`. -/
structure SepModule where
  background : NDArray → Background
  extract : NDArray → ℚ → ℚ → Catalog

/-- The third-party numpy / scarlet wavelet operations used by
`makeCatalog`, kept opaque. `zeroCoarsestScale` is the slice assignment
`wave_detect[:, -1, :, :] = 0`, which zeroes the last (coarsest) wavelet
scale; `firstScale` is the indexing `wave_detect[0][0]`. -/
structure WaveletExt where
  npSum0 : NDArray → NDArray
  meanAxis0 : NDArray → NDArray
  starletCoeffs4 : NDArray → Coeffs
  starletCoeffs : NDArray → Coeffs
  zeroCoarsestScale : Coeffs → Coeffs
  starletImage : Coeffs → NDArray
  firstScale : Coeffs → NDArray

/-- The module-level environment in which `makeCatalog` resolves the three
free identifiers its body references. NB2 imports numpy, scarlet
(`Starlet`), pickle, matplotlib, astropy and the lsst packages, but never
binds `sep`, `datas` or `mad_wavelet` (its own markdown notes that `sep`
is not even available on the target kernel). -/
structure ModuleEnv where
  sep : Option SepModule
  datas : Option (List DataObj)
  mad_wavelet : Option (NDArray → ℚ)

/-- The module-level environment of NB2: none of the three names is bound. -/
def notebookEnv : ModuleEnv :=
  ⟨none, none, none⟩

/-- The dynamically-typed value bound to `bg_rms` (a scalar in the
`len(datas) == 1` branch, a list otherwise); it is dead code, never
returned. -/
inductive PyVal where
  | num (q : ℚ)
  | list (l : List ℚ)

/-- The `if`/`else` cascade of `makeCatalog` that computes the detection
image `detect` from `detect_image` and `wave`. -/
def makeCatalogDetect (ext : WaveletExt) (detect_image : NDArray) (wave : Bool) : NDArray :=
  if ndim detect_image = 3 then
    if wave then
      ext.starletImage (ext.zeroCoarsestScale (ext.starletCoeffs4 (ext.meanAxis0 detect_image)))
    else
      ext.meanAxis0 detect_image
  else
    if wave then
      ext.firstScale (ext.starletCoeffs detect_image)
    else
      detect_image

/-- Shallow embedding of `makeCatalog(cube, lvl=3, wave=True)`. Each free
module-level identifier is looked up in `env` at its first use, in source
order (`sep`, then `datas`, then `mad_wavelet`); an unbound name raises
`NameError`, exactly as in Python. -/
def makeCatalog (env : ModuleEnv) (ext : WaveletExt) (cube : NDArray) (lvl : ℚ) (wave : Bool) :
    Except PyErr Catalog :=
  let detect_image := ext.npSum0 cube
  let detect := makeCatalogDetect ext detect_image wave
  match env.sep with
  | none => .error (.nameError "sep")
  | some sepM =>
    let bkg := sepM.background detect
    let catalog := sepM.extract detect lvl bkg.globalrms
    match env.datas with
    | none => .error (.nameError "datas")
    | some datas =>
      match env.mad_wavelet with
      | none => .error (.nameError "mad_wavelet")
      | some madw =>
        let _bg_rms : PyVal :=
          if datas.length = 1 then .num (madw datas.headI.images)
          else .list (datas.map fun d => madw d.images)
        .ok catalog

/-! ## The `showRGB` helper (NB1)

```python
def showRGB(image, bgr="gri", ax=None, fp=None, figsize=(8,8), stretch=1, Q=10):
    if len(image) == 3:
        bgr = image.filters
    rgb = make_lupton_rgb(image_r=image[bgr[2]].array,
                          image_g=image[bgr[1]].array,
                          image_b=image[bgr[0]].array,
                          stretch=stretch, Q=Q)
    if ax is None:
        fig = plt.figure(figsize=figsize)
        ax = fig.add_subplot(1,1,1)
    integerPixelBBox = image[bgr[0]].getBBox()
    bbox = Box2D(integerPixelBBox)
    ax.imshow(rgb, interpolation='nearest', origin='lower',
              extent=(bbox.getMinX(), bbox.getMaxX(), bbox.getMinY(), bbox.getMaxY()))
    if fp is not None:
        for peak in fp.getPeaks():
            ax.plot(peak.getIx(), peak.getIy(), "bx", mew=2)
```

`make_lupton_rgb` is third-party and kept opaque (a function parameter);
the matplotlib state is modelled explicitly as the figure count and the
list of drawing commands issued, so that the frame condition (`showRGB`
reads and mutates nothing but its arguments and the figure) is a theorem
about the embedding. -/

/-- The numpy pixel array of one band (`image[f].array`), kept abstract. -/
structure Plane where
  tag : Nat
  deriving DecidableEq, Inhabited

/-- An integer bounding box (`lsst.geom.Box2I`), whose integer coordinates
refer to pixel centers. -/
structure BBoxI where
  minX : Int
  minY : Int
  maxX : Int
  maxY : Int
  deriving DecidableEq

/-- A floating-point bounding box (`lsst.geom.Box2D`), whose coordinates
refer to pixel edges. -/
structure BBoxQ where
  minX : ℚ
  minY : ℚ
  maxX : ℚ
  maxY : ℚ
  deriving DecidableEq

/-- `Box2D(box2i)`: as the comment in the `showRGB` cell explains, the
integer box addresses pixel centers and the floating-point box the pixel
edges, so the conversion pads by half a pixel on every side. -/
def box2DOfBox2I (b : BBoxI) : BBoxQ :=
  ⟨(b.minX : ℚ) - 1/2, (b.minY : ℚ) - 1/2, (b.maxX : ℚ) + 1/2, (b.maxY : ℚ) + 1/2⟩

/-- An `lsst.afw.image.MultibandImage`: its filter list, and for each
filter name the pixel array and integer bounding box of that band.
`len(image)` is the number of filters. -/
structure MultibandImage where
  filters : List String
  planeOf : String → Plane
  bboxOf : String → BBoxI

/-- A detected peak with integer position (`peak.getIx()`, `peak.getIy()`). -/
structure Peak where
  ix : Int
  iy : Int
  deriving DecidableEq

/-- An `lsst.afw.detection.Footprint`, exposing its peak catalog. -/
structure Footprint where
  peaks : List Peak

/-- The opaque RGB array produced by `make_lupton_rgb`. -/
structure Rgb where
  tag : Nat
  deriving DecidableEq, Inhabited

/-- The type of the third-party `make_lupton_rgb(image_r, image_g, image_b,
stretch, Q)` routine. -/
abbrev LuptonFn := Plane → Plane → Plane → ℚ → ℚ → Rgb

/-- A matplotlib drawing command issued by `showRGB`: the `ax.imshow` of
the composed RGB array with its extent, or an `ax.plot` peak marker. -/
inductive DrawCmd where
  | imshow (rgb : Rgb) (extent : BBoxQ)
  | peakMark (x y : Int)
  deriving DecidableEq

/-- The state `showRGB` can observe or mutate: the input image object and
the matplotlib state (figures created so far, drawing commands issued). -/
structure PlotState where
  image : MultibandImage
  figureCount : Nat
  draws : List DrawCmd

/-- The reassignment at the top of `showRGB`: with exactly three filters
the `bgr` argument is replaced by the filter list of the image itself. -/
def effectiveBgr (image : MultibandImage) (bgr : List String) : List String :=
  if image.filters.length = 3 then image.filters else bgr

/-- Shallow embedding of `showRGB`. `axGiven` is whether the `ax` argument
was passed (non-`None`); the returned `Rgb` is the local variable `rgb`,
the displayed color composite. -/
def showRGB (lupton : LuptonFn) (st : PlotState) (bgr : List String) (axGiven : Bool)
    (fp : Option Footprint) (stretch Q : ℚ) : PlotState × Rgb :=
  let image := st.image
  let bgr := effectiveBgr image bgr
  let rgb := lupton (image.planeOf (bgr.getD 2 "")) (image.planeOf (bgr.getD 1 ""))
      (image.planeOf (bgr.getD 0 "")) stretch Q
  let figureCount := if axGiven then st.figureCount else st.figureCount + 1
  let bbox := box2DOfBox2I (image.bboxOf (bgr.getD 0 ""))
  let peakMarks : List DrawCmd :=
    match fp with
    | none => []
    | some f => f.peaks.map fun p => .peakMark p.ix p.iy
  (⟨image, figureCount, st.draws ++ [DrawCmd.imshow rgb bbox] ++ peakMarks⟩, rgb)

/-! ## The scarlet weights cell (NB2)

```python
var = subset.variance.array
weights = 1 / (var ** 2)
...
observation = scarlet.Observation(images, psfs=scarlet.ImagePSF(psfs),
                                  channels=filters, weights=weights)
```

The variance plane is modelled as a map from pixel index (band, y, x) to a
rational value; the elementwise numpy expression `1 / (var ** 2)` becomes
an elementwise definition. -/

/-- A pixel index (band, row, column) into the variance cube. -/
abbrev PixIdx := Nat × Nat × Nat

/-- The NB2 cell `weights = 1 / (var ** 2)`, elementwise over the variance
plane. -/
def nb2Weights (var : PixIdx → ℚ) : PixIdx → ℚ :=
  fun i => 1 / (var i ^ 2)

/-- The `scarlet.Observation` constructor call of NB2, keeping the fields
the notebook passes; images / psfs are opaque tags. -/
structure ScarletObservation where
  imagesTag : Nat
  psfsTag : Nat
  channels : String
  weights : PixIdx → ℚ

/-- The NB2 cell constructing `observation`: `scarlet.Observation(images,
psfs=scarlet.ImagePSF(psfs), channels=filters, weights=weights)`, where
`weights` is the array computed by `nb2Weights`. -/
def nb2Observation (var : PixIdx → ℚ) : ScarletObservation :=
  ⟨0, 0, "ugrizy", nb2Weights var⟩

/-! ## Dataflow of the NB1 processing pipeline (C7)

The relevant cells of NB1, in their order in the notebook:

```python
coadds = [butler.get("deepCoadd_calexp", dataId, filter=f) for f in filters]
coadds = MultibandExposure.fromExposures(filters, coadds)
...
subset = coadds[:, sampleBBox]
...
table = SourceCatalog.Table.make(schema)
detectionResult = detectionTask.run(table, subset["r"])
catalog = detectionResult.sources
...
_, templateCatalog = deblendTask.run(coadds, catalog)
...
measureTask.run(templateCatalog["r"], coadds['r'])
measureTask.run(templateCatalog["i"], coadds['i'])
```

Values are tagged with their provenance, so that the trace records which
catalog each stage consumed. -/

/-- The four pipeline stages the claim is about. -/
inductive Stage where
  | butlerGet
  | detect
  | deblend
  | measure
  deriving DecidableEq

/-- Provenance-tagged notebook values. -/
inductive Val where
  | dataId
  | exposures
  | sub (v : Val)
  | band (v : Val) (f : String)
  | table
  | detCat (exposure : Val)
  | fluxCatStub
  | deblendCat (coadds catalog : Val)
  | measured (catalog exposure : Val)
  deriving DecidableEq

/-- `detectionTask.run(table, exposure).sources`: a new catalog derived
from the exposure it was run on. -/
def detectionTaskRun (_table exposure : Val) : Val :=
  .detCat exposure

/-- `deblendTask.run(coadds, catalog)`: returns the flux-catalog
placeholder and the template catalog derived from its inputs. -/
def deblendTaskRun (coadds catalog : Val) : Val × Val :=
  (.fluxCatStub, .deblendCat coadds catalog)

/-- `measureTask.run(catalog, exposure)`: measures the given catalog. -/
def measureTaskRun (catalog exposure : Val) : Val :=
  .measured catalog exposure

/-- One event of the pipeline trace: which external stage ran, on which
input, producing which output. -/
structure Event where
  stage : Stage
  input : Val
  output : Val
  deriving DecidableEq

/-- A default event used for safe indexing into the trace. -/
def noEvent : Event :=
  ⟨.butlerGet, .table, .table⟩

/-- The trace of external pipeline calls made by NB1, in the order its
cells execute, with every argument wired exactly as in the source. -/
def nb1PipelineTrace : List Event :=
  let coadds := Val.exposures
  let subset := Val.sub coadds
  let catalog := detectionTaskRun Val.table (Val.band subset "r")
  let templateCatalog := (deblendTaskRun coadds catalog).2
  [⟨.butlerGet, Val.dataId, coadds⟩,
   ⟨.detect, Val.band subset "r", catalog⟩,
   ⟨.deblend, catalog, templateCatalog⟩,
   ⟨.measure, Val.band templateCatalog "r",
     measureTaskRun (Val.band templateCatalog "r") (Val.band coadds "r")⟩,
   ⟨.measure, Val.band templateCatalog "i",
     measureTaskRun (Val.band templateCatalog "i") (Val.band coadds "i")⟩]

/-! ## Statement-level model of every code cell (C1, C4, C10)

Each code cell of the five notebooks is translated to the list of
statements it executes. A statement is either simple — an IPython `!`
shell escape, an IPython `%` magic, an import, a call to a named function
or method, or a call-free statement (assignment / expression, kept with a
short description) — or compound: a `for` loop, the `for` loop whose body
is a `try`/`except` block (the only form of exception handler occurring in
the notebooks, in the last two cells of NB5), a function definition or a
class definition, each carrying the simple statements of its body (control
flow inside a body is flattened to the sequence of its call sites; no body
contains a `try`/`except`). Commented-out code (for example the
`postage_stamp.writeFits` line of NB4 and the `makeCatalog` call of NB2)
is not a statement and therefore does not appear. -/

/-- A simple (non-compound) notebook statement. -/
inductive BasicStmt where
  | shell (cmd : String)
  | magic (cmd : String)
  | imp (modules : String)
  | call (fn : String)
  | plain (desc : String)
  deriving DecidableEq

/-- A notebook statement. -/
inductive Stmt where
  | basic (b : BasicStmt)
  | forLoop (body : List BasicStmt)
  | forTryExcept (body handler : List BasicStmt)
  | defFun (name : String) (body : List BasicStmt)
  | classDef (name : String) (body : List BasicStmt)
  deriving DecidableEq

/-- A code cell is the list of statements it runs. -/
abbrev Cell := List Stmt

/-- Shorthand: a shell-escape statement. -/
def sSh (cmd : String) : Stmt :=
  .basic (.shell cmd)

/-- Shorthand: a magic statement. -/
def sMg (cmd : String) : Stmt :=
  .basic (.magic cmd)

/-- Shorthand: an import statement. -/
def sIm (modules : String) : Stmt :=
  .basic (.imp modules)

/-- Shorthand: a call statement. -/
def sC (fn : String) : Stmt :=
  .basic (.call fn)

/-- Shorthand: a call-free statement. -/
def sP (desc : String) : Stmt :=
  .basic (.plain desc)

/-- NB1, `lsst_stack_deblender`: its code cells in order. -/
def nb1Cells : List Cell :=
  [[sSh "echo $HOSTNAME", sSh "eups list -s | grep lsst_distrib"],
   [sIm "numpy, lsst.daf.persistence, lsst.geom, lsst.afw.image, lsst.afw.detection"],
   [sIm "lsst.afw.image MultibandExposure"],
   [sIm "desc_dc2_dm_data", sC "desc_dc2_dm_data.get_butler"],
   [sP "dataId assignment"],
   [sP "filters = grizy", sC "butler.get", sC "MultibandExposure.fromExposures"],
   [sIm "astropy.visualization make_lupton_rgb, matplotlib.pyplot", sMg "matplotlib inline"],
   [.defFun "showRGB"
     [.call "make_lupton_rgb", .call "plt.figure", .call "fig.add_subplot",
      .call "image.getBBox", .call "Box2D", .call "ax.imshow",
      .call "fp.getPeaks", .call "ax.plot"]],
   [sC "showRGB"],
   [sC "showRGB"],
   [sP "frame = 50", sC "Box2I", sC "Box2I", sP "subset = coadds subimage",
    .forLoop [.call "coadds.getPsf", .call "subset.setPsf"]],
   [sC "showRGB"],
   [sIm "lsst.meas.algorithms, lsst.meas.extensions.scarlet.deblend, lsst.meas.base, lsst.afw.table"],
   [sC "SourceCatalog.Table.makeMinimalSchema", sC "SourceDetectionTask",
    sC "ScarletDeblendTask.ConfigClass", sP "config.maxIter = 100", sC "ScarletDeblendTask",
    sC "SingleFrameMeasurementTask.ConfigClass", sP "measureConfig plugins and slots",
    sC "SingleFrameMeasurementTask"],
   [sC "SourceCatalog.Table.make", sC "detectionTask.run", sP "catalog = detectionResult.sources"],
   [sP "catalog.schema"],
   [sC "catalog.getFootprint"],
   [sC "footprint.getSpans", sC "print"],
   [sC "footprint.getPeaks", sC "print"],
   [.forLoop [.call "src.getFootprint", .call "fp.getBBox",
     .call "MultibandFootprint.fromImages", .call "mfp.getImage", .call "showRGB"]],
   [sC "deblendTask.run"],
   [sC "measureTask.run", sC "measureTask.run"],
   [sIm "lsst.afw.table",
    .forLoop [.call "table.clone", .call "afwTable.SourceCatalog", .call "catalog.extend"]],
   [sIm "lsst.afw.detection, lsst.afw.image", sP "parentIdx = 13",
    sC "catalog.getFootprint", sC "fp.getBBox", sC "Image", sC "MultibandImage.fromImages",
    sC "templateCatalog.get", sP "templateChildren dict comprehension",
    .forLoop [.call "src.getFootprint", .call "MultibandFootprint", .call "fp.getBBox",
      .call "fp.getImage", .call "fp.getImage", .call "showRGB", .call "plt.show"],
    sC "MultibandImage"],
   [sC "plt.figure", sC "fig.add_subplot", sC "fp.getBBox", sC "showRGB", sC "showRGB"],
   [],
   []]

/-- NB2, the scarlet introduction notebook: its code cells in order. -/
def nb2Cells : List Cell :=
  [[sSh "echo $HOSTNAME", sSh "eups list -s | grep lsst_distrib"],
   [sIm "os, matplotlib, matplotlib.pyplot, numpy, astropy.visualization.lupton_rgb, scarlet, scarlet.display, pickle",
    sMg "matplotlib inline", sC "matplotlib.rc"],
   [sIm "numpy, lsst, lsst.daf.persistence, lsst.geom, lsst.afw.image, lsst.afw.detection"],
   [sIm "desc_dc2_dm_data", sC "desc_dc2_dm_data.get_butler", sP "dataId and filters",
    sC "butler.get", sC "MultibandExposure.fromExposures"],
   [sC "scarlet.display.AsinhMapping", sC "scarlet.display.img_to_rgb"],
   [sC "plt.figure", sC "plt.imshow", sC "plt.xticks", sC "plt.yticks", sC "plt.show"],
   [.defFun "imshow_rgb"
     [.call "scarlet.display.AsinhMapping", .call "scarlet.display.img_to_rgb",
      .call "plt.figure", .call "plt.imshow", .call "plt.xticks", .call "plt.yticks",
      .call "plt.plot", .call "plt.show"]],
   [sP "n = 180", sC "Box2I", sP "subset = coadds subimage",
    .forLoop [.call "coadds.getPsf", .call "subset.setPsf"]],
   [sP "images = subset.image.array", sC "imshow_rgb"],
   [sC "subset.computePsfImage", sC "scarlet.display.AsinhMapping", sC "imshow_rgb"],
   [sP "var = subset.variance.array", sP "weights = 1 / (var ** 2)"],
   [sP "channels list", sC "scarlet.GaussianPSF", sC "scarlet.Frame", sC "scarlet.ImagePSF",
    sC "scarlet.Observation"],
   [sC "print", sC "observation.match", sC "imshow_rgb"],
   [.defFun "makeCatalog"
     [.call "np.sum", .call "detect_image.mean", .call "Starlet", .call "Starlet",
      .call "detect_image.mean", .call "Starlet", .call "sep.Background", .call "sep.extract",
      .call "mad_wavelet", .call "mad_wavelet"]],
   [sC "open", sC "pickle.load", sC "imshow_rgb"],
   [sC "scarlet.ExtendedSource", sC "scarlet.display.show_scene", sC "plt.show"],
   [sC "scarlet.display.show_sources", sC "plt.show"],
   [.forLoop [.call "scarlet.ExtendedSource"], sC "scarlet.display.show_scene", sC "plt.show"],
   [sC "scarlet.Blend"],
   [sMg "time", sC "blend.fit", sC "print", sC "plt.plot", sC "plt.xlabel", sC "plt.ylabel"],
   [sC "scarlet.display.show_scene", sC "plt.show"],
   [.forLoop [.call "scarlet.measure.flux"], sC "plt.plot", sC "plt.show"],
   [sC "scarlet.display.show_sources", sC "plt.show"],
   [sIm "scarlet TabulatedSpectrum, FactorizedComponent, init_extended_source, ImageMorphology",
    .classDef "NewSourceMorphology"
      [.call "MonotonicityConstraint", .call "MonotonicityConstraint",
       .call "SymmetryConstraint", .call "PositivityConstraint", .call "CenterOnConstraint",
       .call "NormalizationConstraint", .call "ConstraintChain", .call "Parameter",
       .call "np.round", .call "Parameter"],
    .classDef "NewExtendedSource"
      [.call "init_extended_source", .call "TabulatedSpectrum", .call "model_frame.get_pixel",
       .call "NewSourceMorphology"]],
   [sP "cutout_size = 300", sC "lsst.geom.ExtentI", sC "butler.get", sC "lsst.geom.SpherePoint",
    sC "skymap.findTract", sC "wcs.skyToPixel", sC "lsst.geom.BoxI", sC "butler.get",
    sC "MultibandExposure.fromExposures", sC "coadds.computePsfImage",
    sP "cube = coadds.image.array", sP "var2 = coadds.variance.array",
    sP "weights2 = 1 / (var ** 2)"],
   [sC "open", sC "pickle.load", sC "imshow_rgb"],
   [sP "channels placeholder", sP "model_psf placeholder", sC "scarlet.frame",
    sC "scarlet.Observation", sC "observation.match"],
   [sP "sources placeholder docstring", sC "scarlet.display.show_scene", sC "plt.show"],
   [sC "scarlet.Blend", sMg "time", sC "blend.fit", sC "print", sC "plt.plot",
    sC "plt.xlabel", sC "plt.ylabel"],
   [sP "display placeholder docstring"]]

/-- NB3, the calexp guided tour: its code cells in order. -/
def nb3Cells : List Cell :=
  [[sSh "eups list -s lsst_distrib"],
   [sIm "pprint"],
   [sIm "lsst.daf.persistence Butler"],
   [sIm "lsst.afw.display"],
   [sP "datadir", sC "Butler"],
   [sP "dataId", sC "butler.get"],
   [sP "calexp.image"],
   [sMg "matplotlib inline"],
   [sC "afw_display.Display", sC "display1.scale", sC "display1.mtv"],
   [sP "data = calexp.image.array"],
   [sP "data class attribute"],
   [sC "dir"],
   [sP "calexp_methods"],
   [sP "calexp.maskedImage"],
   [sP "calexp.variance"],
   [sP "calexp.variance.array"],
   [sP "calexp.mask"],
   [sP "calexp.mask.array"],
   [sC "calexp.getDimensions"],
   [sC "calexp.getXY0"],
   [sC "calexp.getX0", sC "calexp.getY0"],
   [sC "calexp.getWcs"],
   [sC "wcs.pixelToSky"],
   [sC "calexp.getMetadata", sC "metadata.toDict", sC "pprint"],
   [sC "metadata.get"],
   [sC "calexp.getInfo"],
   [sC "calexp_info.getVisitInfo"],
   [sC "dir"],
   [sC "visit_info.getWeather"],
   [sC "calexp_info.hasValidPolygon"],
   [sC "calexp_info.getValidPolygon"],
   [sC "calexp_info.hasCoaddInputs"],
   [sC "calexp_info.hasTransmissionCurve"],
   [sC "calexp_info.hasWcs"],
   [sC "calexp_info.hasDetector"],
   [sC "calexp_info.getDetector", sC "dir"],
   [sC "calexp_info.hasApCorrMap"],
   [sC "calexp_info.getApCorrMap"],
   [.forLoop [.call "apCorrMap.keys", .call "apCorrMap.get", .call "print"]],
   [sC "calexp.hasPsf"],
   [sC "calexp.getPsf"],
   [sIm "lsst.geom PointD", sC "PointD", sC "psf.computeImage"],
   [sC "afw_display.Display", sC "display1.scale", sC "display1.mtv"],
   [sC "calexp.getPhotoCalib"],
   [sIm "lsst.geom, lsst.afw.image"],
   [sC "afwGeom.Box2I", sC "afwGeom.Point2I", sC "bbox.include", sC "afwGeom.Point2I",
    sC "bbox.include", sP "cutout = calexp subimage"],
   [sC "afw_display.Display", sC "display1.scale", sC "display1.mtv"],
   [sC "cutout.getXY0"],
   [sC "butler.get", sC "cutout_calexp.getDimensions"],
   [sC "afw_display.Display", sC "display1.scale", sC "display1.mtv"],
   [sC "calexp.clone"],
   [sC "afw_display.Display", sC "display1.scale", sC "display1.mtv"],
   [sC "Butler"],
   [sC "coadd_butler.getKeys"],
   [sC "coadd_butler.get"],
   [sC "dir"],
   [sP "coadd_methods"],
   [sC "set", sC "set", sC "set.symmetric_difference"],
   [sC "print"],
   [sC "calexp.mask.getMaskPlaneDict"],
   [sC "coadd.mask.getMaskPlaneDict"],
   [sC "coadd.getXY0"],
   [sC "afw_display.Display", sC "display1.scale", sC "display1.mtv"],
   [sC "afw_display.Display", sC "display1.scale", sC "display1.mtv", sC "display1.zoom",
    sC "display1.pan"],
   []]

/-- NB4, the Gen-2 Butler data-access notebook: its code cells in order. -/
def nb4Cells : List Cell :=
  [[sIm "matplotlib.pyplot, numpy, lsst.afw.display, lsst.daf.persistence, lsst.geom",
    sMg "matplotlib inline"],
   [sP "repo path", sC "Butler"],
   [sP "data_id and dataset_type", sC "butler.datasetExists", sC "print", sC "butler.get"],
   [sC "type", sC "print"],
   [sC "data_entry.asAstropy", sC "table.to_pandas", sC "data_frame.head"],
   [sC "butler.getKeys", sC "print"],
   [sP "commented misuse example", sP "new_data_id", sC "butler.get", sC "merged_i_data.copy",
    sC "column.all", sC "print"],
   [sC "butler.subset", sC "dr.datasetExists", sC "print"],
   [sC "butler.getKeys"],
   [sP "commented flux selection", sP "i = 1000", sC "np.degrees", sC "np.degrees"],
   [sP "coadd_id", sC "butler.get", sC "SpherePoint", sC "lsst.geom.ExtentI",
    sC "image.getCutout", sP "commented postage_stamp.writeFits"],
   [sC "postage_stamp.getWcs", sC "wcs.skyToPixel", sC "afwDisplay.Display", sC "display.mtv",
    sC "display.scale", sC "display.dot", sC "display.show_colorbar", sC "plt.xlabel",
    sC "plt.ylabel", sC "plt.show"],
   [sC "butler.get", sP "tract_info = skymap index"],
   [sC "tract_info.getPatchInfo"],
   [sC "tract_info.getBBox", sC "lsst.geom.Box2D", sC "box.getCorners", sC "print",
    sC "tract_info.getWcs", sC "wcs.pixelToSky", sP "corner list comprehension", sC "print"],
   [sC "np.radians", sC "Angle", sC "np.radians", sC "Angle", sC "SpherePoint",
    sC "skymap.findClosestTractPatchList", sC "print", sC "print"]]

/-- NB5, `DataInventory.ipynb`: its code cells in order. The last two
cells are the dataset-survey loops whose bodies are wrapped in a bare
`try`/`except` that prints a message and continues. -/
def nb5Cells : List Cell :=
  [[sSh "cd .. && python setup.py -q develop --user && cd -"],
   [sMg "load_ext autoreload", sMg "autoreload 2"],
   [sIm "numpy", sMg "matplotlib inline", sIm "stackclub"],
   [sSh "echo $HOSTNAME", sSh "eups list -s lsst_distrib"],
   [sSh "ls -d /project/shared/data/*/_mapper | grep -v README | cut -d/ -f1-5 | sort | uniq",
    sSh "ls -d /project/shared/data/*/repositoryCfg.yaml | grep -v README | cut -d/ -f1-5 | sort | uniq",
    sC "np.unique", sP "shared_repos display"],
   [.forLoop [.shell "du -sh $repo"]],
   [sSh "ls -d /datasets/*/repo/_mapper |& grep -v \"No such\" | cut -d/ -f1-4 | sort | uniq",
    sSh "ls -d /datasets/*/repo/repositoryCfg.yaml |& grep -v \"No such\" | cut -d/ -f1-4 | sort | uniq",
    sC "np.unique", sP "repos display"],
   [sP "triple-quoted du loop, not executed"],
   [sP "repo, rerun, depth, tract_location"],
   [sC "stackclub.Taster"],
   [sC "stackclub.Taster"],
   [sC "type"],
   [sC "stackclub.Taster"],
   [sC "print"],
   [sC "tarquin.look_for_datasets_of_type"],
   [sC "tarquin.look_for_skymap"],
   [sC "tarquin.what_exists"],
   [sC "tarquin.what_exists"],
   [sP "tarquin.exists"],
   [sC "tarquin.estimate_sky_area"],
   [sC "tarquin.count_things", sC "print"],
   [sP "tarquin.tracts"],
   [sC "tarquin.plot_sky_coverage"],
   [sC "tarquin.report"],
   [sC "tarquin.butler.queryMetadata"],
   [sP "commented help call"],
   [.forLoop [.plain "tract_location", .call "stackclub.Taster", .call "taster.report"]],
   [sC "help"],
   [.forTryExcept [.call "stackclub.Taster", .call "taster.report"] [.call "print"]],
   [.forTryExcept [.call "stackclub.Taster", .call "taster.report"] [.call "print"]]]

/-- Every code cell of the repository, in notebook order. -/
def allCells : List Cell :=
  nb1Cells ++ nb2Cells ++ nb3Cells ++ nb4Cells ++ nb5Cells

/-- Every statement of the repository. -/
def allStmts : List Stmt :=
  allCells.flatten

/-- The simple statements contained in a statement (a simple statement
itself, or the flattened body of a compound one). -/
def Stmt.basics : Stmt → List BasicStmt
  | .basic b => [b]
  | .forLoop body => body
  | .forTryExcept body handler => body ++ handler
  | .defFun _ body => body
  | .classDef _ body => body

/-- Every simple statement of the repository, compound bodies included. -/
def allBasics : List BasicStmt :=
  (allStmts.map Stmt.basics).flatten

/-- The names of all functions called anywhere in the repository. -/
def allCallNames : List String :=
  allBasics.filterMap fun b =>
    match b with
    | .call fn => some fn
    | _ => none

/-! ## Repository discovery (NB5, cells 11 and 14; C6)

```python
shared_repos_with_mappers = ! ls -d /project/shared/data/*/_mapper | grep -v README | cut -d'/' -f1-5 | sort | uniq
shared_repos_with_yaml_files = ! ls -d /project/shared/data/*/repositoryCfg.yaml | grep -v README | cut -d'/' -f1-5 | sort | uniq
shared_repos = np.unique(shared_repos_with_mappers + shared_repos_with_yaml_files)
```

and the analogous `repos` cell over `/datasets/*/repo` with `cut -f1-4`.
Paths are modelled as their slash-separated component lists (so
`cut -d'/' -f1-k` is `List.take k`); the filesystem is the list of
directories matched by the glob, each with the file names present at its
top level. `grep -v README` drops a listed entry when the pattern README
occurs in the printed line; since neither README nor the two marker names
contain a slash, an occurrence in the line `dir/marker` lies entirely
within a single path component, so the check is per-component. The
`|& grep -v "No such"` of the second cell only filters the stderr line ls
emits when the glob matches nothing, and drops no real entry. -/

/-- A filesystem path as its slash-separated components. -/
abbrev FsPath := List String

/-- A directory matched by one of the discovery globs: its path and the
file names present at its top level. -/
structure FsDir where
  path : FsPath
  files : List String
  deriving DecidableEq

/-- Whether `pat` occurs as a substring of `s`. -/
def containsSub (s pat : String) : Bool :=
  s.toList.tails.any fun t => pat.toList.isPrefixOf t

/-- Whether a listed entry is dropped by `grep -v README`: some component
of the printed line contains README. -/
def entryMatchesReadme (entry : FsPath) : Bool :=
  entry.any fun comp => containsSub comp "README"

/-- `ls -d <glob>/<marker>`: the entries `dir/marker` for each matched
directory whose top level contains the marker file. -/
def lsMarker (dirs : List FsDir) (marker : String) : List FsPath :=
  (dirs.filter fun d => d.files.contains marker).map fun d => d.path ++ [marker]

/-- `sort | uniq` (and `np.unique`): sort the lines and drop duplicates.
Both produce the sorted list of distinct lines. -/
def sortUniq (l : List FsPath) : List FsPath :=
  List.insertionSort (· ≤ ·) l.dedup

/-- One discovery pipeline:
`ls -d <glob>/<marker> | grep -v README | cut -d'/' -f1-k | sort | uniq`. -/
def discoverWith (k : Nat) (dirs : List FsDir) (marker : String) : List FsPath :=
  sortUniq (((lsMarker dirs marker).filter fun e => !(entryMatchesReadme e)).map (List.take k))

/-- The repository list of a discovery cell: `np.unique` of the
concatenation of the `_mapper` listing and the `repositoryCfg.yaml`
listing. `k` is the number of path components kept by `cut` (5 for
`/project/shared/data/*`, 4 for `/datasets/*/repo`). -/
def discoverRepos (k : Nat) (dirs : List FsDir) : List FsPath :=
  sortUniq (discoverWith k dirs "_mapper" ++ discoverWith k dirs "repositoryCfg.yaml")

/-! ## The NB5 survey loops (cells 58 and 59; C1)

```python
for repo in shared_repos:
    try:
        taster = stackclub.Taster(repo)
        taster.report()
    except:
        print("Taster failed to explore repo ", repo)
```

Constructing the `Taster` and running `report` call into the Butler and
can raise (the markdown above the cell records that they do fail on some
repos); the bare `except:` catches every exception. The two calls are kept
opaque as a combined fallible action. -/

/-- A `stackclub.Taster` instance, kept opaque. -/
structure Taster where
  tag : Nat
  deriving DecidableEq

/-- The body of the survey loop for one repo: run the fallible Taster
action; the bare `except:` turns any exception into the printed failure
line (the two spaces come from the comma in the `print` call). -/
def tasterVisit (taste : String → Except PyErr Taster) (repo : String) : List String :=
  match taste repo with
  | .ok _ => []
  | .error _ => ["Taster failed to explore repo  " ++ repo]

/-- The whole survey loop: visit each repo in order, collecting the
printed output; the `Except` result records whether an exception escaped
the loop. -/
def tasterLoop (taste : String → Except PyErr Taster) : List String → Except PyErr (List String)
  | [] => .ok []
  | r :: rs =>
    let out := tasterVisit taste r
    match tasterLoop taste rs with
    | .ok rest => .ok (out ++ rest)
    | .error e => .error e

/-- The statement form of the two survey-loop cells in the statement-level
model. -/
def tasterLoopStmt : Stmt :=
  .forTryExcept [.call "stackclub.Taster", .call "taster.report"] [.call "print"]

/-- Whether a statement contains an exception handler. -/
def catchesExc : Stmt → Bool
  | .forTryExcept _ _ => true
  | _ => false

/-! ## Classification of statements (C4, C10) -/

/-- The Python write-to-disk calls the repository could have used:
`writeFits` on an image and `pickle.dump`. Neither occurs as a live call
in any cell (the single `writeFits` use in NB4 is commented out). -/
def fsWriteApis : List String :=
  ["writeFits", "pickle.dump"]

/-- Whether executing a given shell escape changes the filesystem,
classified from the documented behaviour of the six distinct commands the
notebooks run: `echo`, `eups list`, `ls`, `du` and the pipelines built
from them only read, while `python setup.py develop --user` installs the
stackclub package (it writes the egg-info and the user-site egg-link). -/
def shellWritesFs (cmd : String) : Bool :=
  cmd == "cd .. && python setup.py -q develop --user && cd -"

/-- Whether a simple statement writes to the filesystem. -/
def writesFs : BasicStmt → Bool
  | .call fn => fsWriteApis.contains fn
  | .shell cmd => shellWritesFs cmd
  | _ => false

/-- The effect of one simple statement on the filesystem, modelled as the
list of files created: the develop-install adds the egg-link install
record; a live write call would add its output file (none occurs). -/
def fsExec (fs : List String) (b : BasicStmt) : List String :=
  if writesFs b then fs ++ ["stackclub.egg-link"] else fs

/-- Run a list of simple statements against a filesystem state. -/
def runFs (l : List BasicStmt) (fs : List String) : List String :=
  l.foldl fsExec fs

/-- Thread-creating Python APIs; none is imported or called anywhere in
the notebooks. -/
def threadApis : List String :=
  ["threading.Thread", "multiprocessing.Process", "multiprocessing.Pool",
   "concurrent.futures.ThreadPoolExecutor", "concurrent.futures.ProcessPoolExecutor"]

/-- APIs that initiate asynchronous execution; none is imported or called
anywhere in the notebooks (nor does any cell use async / await syntax). -/
def asyncApis : List String :=
  ["asyncio.run", "asyncio.create_task", "asyncio.ensure_future"]

/-- Process-creating Python APIs; none is imported or called anywhere in
the notebooks. -/
def procApis : List String :=
  ["subprocess.run", "subprocess.Popen", "os.system", "os.fork",
   "multiprocessing.Process", "multiprocessing.Pool"]

/-- Whether a simple statement creates a thread. -/
def createsThread : BasicStmt → Bool
  | .call fn => threadApis.contains fn
  | _ => false

/-- Whether a simple statement initiates asynchronous execution. -/
def initiatesAsync : BasicStmt → Bool
  | .call fn => asyncApis.contains fn
  | _ => false

/-- Whether executing a simple statement creates a process: an IPython `!`
escape runs its command line in a spawned subshell (a child process that
the kernel waits on), and a call to a process-creating API would too. -/
def createsProcess : BasicStmt → Bool
  | .call fn => procApis.contains fn
  | .shell _ => true
  | _ => false

/-- Whether a simple statement is an IPython `!` shell escape. Shell
escapes run synchronously: the kernel blocks until the command exits. -/
def BasicStmt.isShellEscape : BasicStmt → Bool
  | .shell _ => true
  | _ => false

/-! ## Claims -/

/-- Claim C3: every call to `makeCatalog` raises `NameError` and never
returns normally. Its body references the module-level names `sep`,
`datas` and `mad_wavelet`, none of which is a parameter or bound anywhere
in the notebook, so under the notebook environment every call — for any
cube, detection level and wave flag, and whatever the third-party numpy /
scarlet operations return — stops at `sep.Background(detect)` with a
`NameError` on `sep`; consequently no `bg_rms` is ever produced and no
value is ever returned. -/
theorem claim_C3_nameError (ext : WaveletExt) (cube : NDArray) (lvl : ℚ) (wave : Bool) :
    makeCatalog notebookEnv ext cube lvl wave = .error (.nameError "sep") :=
  rfl

/-- Claim C2: `makeCatalog(cube, lvl, wave)` performs detection by
wrapping the third-party wavelet / sep calls: in an environment binding
the external names, it coadds the cube by summing over axis 0 (the
`ext.npSum0` call), computes the detection image by the documented case
split — 3-dimensional coadd with `wave` zeroes the coarsest Starlet scale
of the band mean and reconstructs; 3-dimensional without `wave` takes the
band mean; 2-dimensional with `wave` takes the first Starlet scale;
otherwise the coadd itself — estimates the background with
`sep.Background` on that detection image, and returns exactly the catalog
produced by `sep.extract(detect, lvl, err=bkg.globalrms)`. -/
theorem claim_C2_makeCatalog_steps (s : SepModule) (ds : List DataObj) (mw : NDArray → ℚ)
    (ext : WaveletExt) (cube : NDArray) (lvl : ℚ) (wave : Bool) :
    makeCatalog ⟨some s, some ds, some mw⟩ ext cube lvl wave =
      .ok (s.extract (makeCatalogDetect ext (ext.npSum0 cube) wave) lvl
        ((s.background (makeCatalogDetect ext (ext.npSum0 cube) wave)).globalrms)) ∧
    (ndim (ext.npSum0 cube) = 3 → wave = true →
      makeCatalogDetect ext (ext.npSum0 cube) wave =
        ext.starletImage (ext.zeroCoarsestScale
          (ext.starletCoeffs4 (ext.meanAxis0 (ext.npSum0 cube))))) ∧
    (ndim (ext.npSum0 cube) = 3 → wave = false →
      makeCatalogDetect ext (ext.npSum0 cube) wave = ext.meanAxis0 (ext.npSum0 cube)) ∧
    (ndim (ext.npSum0 cube) = 2 → wave = true →
      makeCatalogDetect ext (ext.npSum0 cube) wave =
        ext.firstScale (ext.starletCoeffs (ext.npSum0 cube))) ∧
    (ndim (ext.npSum0 cube) = 2 → wave = false →
      makeCatalogDetect ext (ext.npSum0 cube) wave = ext.npSum0 cube) := by
  refine ⟨rfl, ?_, ?_, ?_, ?_⟩ <;> intro h hw <;> simp [makeCatalogDetect, h, hw]

/-- A concrete sep module used to witness claim C2. -/
def sep0 : SepModule :=
  ⟨fun a => ⟨(a.tag : ℚ)⟩, fun a _ _ => ⟨a.tag⟩⟩

/-- A concrete set of wavelet operations used to witness claim C2. -/
def ext0 : WaveletExt :=
  ⟨fun a => ⟨a.shape.drop 1, a.tag + 1⟩, fun a => ⟨a.shape.drop 1, a.tag + 2⟩,
   fun a => ⟨a.tag + 3⟩, fun a => ⟨a.tag + 4⟩, fun c => ⟨c.tag + 5⟩,
   fun c => ⟨[c.tag], c.tag + 6⟩, fun c => ⟨[c.tag], c.tag + 7⟩⟩

/-- A concrete mad_wavelet function used to witness claim C2. -/
def madw0 : NDArray → ℚ :=
  fun a => (a.tag : ℚ)

/-- A concrete 4-dimensional input cube used to witness claim C2 (its
axis-0 sum is 3-dimensional). -/
def cube0 : NDArray :=
  ⟨[5, 3, 8, 9], 0⟩

/-- Witness for claim C2 at a concrete environment and input. -/
theorem claim_C2_witness :
    ndim (ext0.npSum0 cube0) = 3 ∧
    makeCatalog ⟨some sep0, some [], some madw0⟩ ext0 cube0 3 true =
      .ok (sep0.extract (makeCatalogDetect ext0 (ext0.npSum0 cube0) true) 3
        ((sep0.background (makeCatalogDetect ext0 (ext0.npSum0 cube0) true)).globalrms)) ∧
    makeCatalogDetect ext0 (ext0.npSum0 cube0) true =
      ext0.starletImage (ext0.zeroCoarsestScale
        (ext0.starletCoeffs4 (ext0.meanAxis0 (ext0.npSum0 cube0)))) :=
  ⟨by decide, (claim_C2_makeCatalog_steps sep0 [] madw0 ext0 cube0 3 true).1,
   (claim_C2_makeCatalog_steps sep0 [] madw0 ext0 cube0 3 true).2.1 (by decide) rfl⟩

/-- Claim C7: in NB1 the pipeline stages execute in the fixed order
retrieval, detection, deblending, measurement (twice), and every stage is
wired to the output of the previous one: detection runs on the r band of
the subimage of the retrieved coadds, deblending runs on the catalog
detection produced, and both measurement calls run on bands of the
template catalog the deblender produced — so measurement is never invoked
on a catalog before the deblender has produced it. -/
theorem claim_C7_pipeline_order :
    nb1PipelineTrace.map Event.stage = [.butlerGet, .detect, .deblend, .measure, .measure] ∧
    (nb1PipelineTrace.getD 1 noEvent).input =
      Val.band (Val.sub (nb1PipelineTrace.getD 0 noEvent).output) "r" ∧
    (nb1PipelineTrace.getD 2 noEvent).input = (nb1PipelineTrace.getD 1 noEvent).output ∧
    (nb1PipelineTrace.getD 3 noEvent).input =
      Val.band (nb1PipelineTrace.getD 2 noEvent).output "r" ∧
    (nb1PipelineTrace.getD 4 noEvent).input =
      Val.band (nb1PipelineTrace.getD 2 noEvent).output "i" :=
  ⟨rfl, rfl, rfl, rfl, rfl⟩

/-- Claim C9: the weights array passed to `scarlet.Observation` is the
elementwise reciprocal of the square of the variance plane: for every
pixel, `weights[i] = 1 / var[i]^2` — the inverse of the squared variance,
which differs from the inverse of the variance itself (at a pixel with
variance 2 the weight is 1/4, not 1/2). -/
theorem claim_C9_weights :
    (∀ (var : PixIdx → ℚ) (i : PixIdx),
      (nb2Observation var).weights i = 1 / (var i * var i)) ∧
    (∀ (var : PixIdx → ℚ) (i : PixIdx), (nb2Observation var).weights i = (var i ^ 2)⁻¹) ∧
    nb2Weights (fun _ => 2) (0, 0, 0) = 1 / 4 ∧
    nb2Weights (fun _ => 2) (0, 0, 0) ≠ 1 / 2 := by
  refine ⟨fun var i => ?_, fun var i => ?_, by norm_num [nb2Weights], by norm_num [nb2Weights]⟩
  · show 1 / (var i ^ 2) = 1 / (var i * var i)
    rw [pow_two]
  · show 1 / (var i ^ 2) = (var i ^ 2)⁻¹
    rw [one_div]

/-- Claim C5: `showRGB` is a direct, stateless call into the third-party
color-composition routine. For every input it leaves the input image
unchanged, the displayed RGB array is exactly the value of a single
`make_lupton_rgb` call on the three per-band pixel arrays, the only state
it mutates is the matplotlib figure (the draw list only grows by the
`imshow` of that RGB array followed by the optional peak markers, and at
most one new figure is created, only when no axis is passed). -/
theorem claim_C5_showRGB_stateless (lupton : LuptonFn) (st : PlotState) (bgr : List String)
    (axGiven : Bool) (fp : Option Footprint) (stretch Q : ℚ) :
    (showRGB lupton st bgr axGiven fp stretch Q).1.image = st.image ∧
    (showRGB lupton st bgr axGiven fp stretch Q).2 =
      lupton (st.image.planeOf ((effectiveBgr st.image bgr).getD 2 ""))
        (st.image.planeOf ((effectiveBgr st.image bgr).getD 1 ""))
        (st.image.planeOf ((effectiveBgr st.image bgr).getD 0 "")) stretch Q ∧
    (showRGB lupton st bgr axGiven fp stretch Q).1.draws =
      st.draws ++
        [DrawCmd.imshow (showRGB lupton st bgr axGiven fp stretch Q).2
          (box2DOfBox2I (st.image.bboxOf ((effectiveBgr st.image bgr).getD 0 "")))] ++
        (match fp with
         | none => []
         | some f => f.peaks.map fun p => .peakMark p.ix p.iy) ∧
    ((showRGB lupton st bgr axGiven fp stretch Q).1.figureCount = st.figureCount ∨
      (showRGB lupton st bgr axGiven fp stretch Q).1.figureCount = st.figureCount + 1) := by
  refine ⟨rfl, rfl, rfl, ?_⟩
  cases axGiven
  · exact Or.inr rfl
  · exact Or.inl rfl

/-- Claim C8: in `showRGB`, whenever the input image has exactly three
filters the `bgr` argument is ignored — the effective band list is the
image filter list and the result does not depend on `bgr` at all — and in
every call the band named by the third element of the effective `bgr` is
composed into the red channel (first `make_lupton_rgb` argument), the
second element into the green channel and the first element into the blue
channel. -/
theorem claim_C8_channel_mapping (lupton : LuptonFn) (st : PlotState) (bgr : List String)
    (axGiven : Bool) (fp : Option Footprint) (stretch Q : ℚ) :
    (st.image.filters.length = 3 →
      effectiveBgr st.image bgr = st.image.filters ∧
      ∀ bgr2, showRGB lupton st bgr axGiven fp stretch Q =
        showRGB lupton st bgr2 axGiven fp stretch Q) ∧
    (showRGB lupton st bgr axGiven fp stretch Q).2 =
      lupton (st.image.planeOf ((effectiveBgr st.image bgr).getD 2 ""))
        (st.image.planeOf ((effectiveBgr st.image bgr).getD 1 ""))
        (st.image.planeOf ((effectiveBgr st.image bgr).getD 0 "")) stretch Q := by
  refine ⟨fun h => ⟨?_, fun bgr2 => ?_⟩, rfl⟩
  · simp [effectiveBgr, h]
  · simp [showRGB, effectiveBgr, h]

/-- A concrete three-filter image used to witness claim C8. -/
def img3 : MultibandImage :=
  ⟨["g", "r", "i"], fun f => ⟨f.length⟩, fun _ => ⟨0, 0, 10, 10⟩⟩

/-- A concrete plot state over `img3` used to witness claim C8. -/
def st3 : PlotState :=
  ⟨img3, 0, []⟩

/-- A concrete color-composition routine used to witness claim C8. -/
def lupton0 : LuptonFn :=
  fun pr pg pb _ _ => ⟨pr.tag * 100 + pg.tag * 10 + pb.tag⟩

/-- Witness for claim C8: on a three-filter image the `bgr` argument is
ignored and the filter list of the image is used. -/
theorem claim_C8_witness :
    effectiveBgr st3.image ["x", "y", "z"] = st3.image.filters ∧
    showRGB lupton0 st3 ["x", "y", "z"] true none 1 10 =
      showRGB lupton0 st3 ["a", "b", "c"] true none 1 10 :=
  ⟨((claim_C8_channel_mapping lupton0 st3 ["x", "y", "z"] true none 1 10).1 (by decide)).1,
   ((claim_C8_channel_mapping lupton0 st3 ["x", "y", "z"] true none 1 10).1 (by decide)).2
     ["a", "b", "c"]⟩

/-- Helper: running statements none of which writes leaves the filesystem
unchanged. -/
theorem runFs_of_no_writes : ∀ (l : List BasicStmt), (∀ b ∈ l, writesFs b = false) →
    ∀ fs, runFs l fs = fs := by
  intro l
  induction l with
  | nil => intro _ _; rfl
  | cons b rest ih =>
    intro h fs
    have hb : writesFs b = false := h b (List.mem_cons_self b rest)
    have hr : ∀ x ∈ rest, writesFs x = false := fun x hx => h x (List.mem_cons_of_mem b hx)
    show runFs rest (fsExec fs b) = fs
    rw [show fsExec fs b = fs by simp [fsExec, hb]]
    exact ih hr fs

/-- Helper: the survey loop returns normally on every input, with the
concatenated per-repo output — no exception ever escapes it. -/
theorem tasterLoop_ok (taste : String → Except PyErr Taster) :
    ∀ repos : List String, tasterLoop taste repos = .ok ((repos.map (tasterVisit taste)).flatten) := by
  intro repos
  induction repos with
  | nil => rfl
  | cons r rs ih =>
    show (match tasterLoop taste rs with
      | .ok rest => Except.ok (tasterVisit taste r ++ rest)
      | .error e => .error e) = _
    rw [ih]
    simp

/-- Counterexample to claim C1 as stated: it is not the case that no code
original to the repository catches exceptions — the statement-level model
of the notebooks contains exception handlers (the two survey-loop cells of
NB5) — and running the survey loop against a Taster that raises on every
repository returns normally with both failure lines printed: the exception
is caught, execution is not halted, and the loop continues past the
failing repository. -/
theorem claim_C1_counterexample :
    (allStmts.all fun s => !(catchesExc s)) = false ∧
    tasterLoop (fun _ => .error (.exc "not a Butler repo")) ["repoA", "repoB"] =
      .ok ["Taster failed to explore repo  repoA", "Taster failed to explore repo  repoB"] :=
  ⟨by decide, rfl⟩

/-- Claim C1, amended: apart from the two dataset-survey loops at the end
of `DataInventory.ipynb` — whose bare `try`/`except` catches any exception
from the Taster calls, prints a failure line and continues with the next
repository, so that the loop always returns normally — no statement of any
notebook catches exceptions, and exceptions from external calls propagate. -/
theorem claim_C1_amended :
    (∀ s ∈ allStmts, catchesExc s = true →
      s = tasterLoopStmt ∧ s ∈ nb5Cells.flatten) ∧
    (∀ (taste : String → Except PyErr Taster) (repos : List String),
      (tasterLoop taste repos).isOk = true) := by
  refine ⟨by decide, fun taste repos => ?_⟩
  rw [tasterLoop_ok taste repos]
  rfl

/-- Witness for claim C1 (amended), at the survey-loop statement itself. -/
theorem claim_C1_witness :
    tasterLoopStmt ∈ nb5Cells.flatten :=
  ((claim_C1_amended.1 tasterLoopStmt (by decide) (by decide)).2)

/-- The shell escape of NB5 cell 2, which installs the stackclub package. -/
def setupShellCmd : String :=
  "cd .. && python setup.py -q develop --user && cd -"

/-- Counterexample to claim C4 as stated: executing the repository code
does not leave the filesystem unchanged — the statement-level model
contains a filesystem-writing statement, namely the `python setup.py -q
develop --user` shell escape of the NB5 set-up cell, which installs the
stackclub package; running all statements from an empty filesystem leaves
the install record behind. -/
theorem claim_C4_counterexample :
    (allBasics.all fun b => !(writesFs b)) = false ∧
    runFs allBasics [] = ["stackclub.egg-link"] ∧
    writesFs (.shell setupShellCmd) = true ∧
    BasicStmt.shell setupShellCmd ∈ allBasics :=
  ⟨by decide, by decide, by decide, by decide⟩

/-- Claim C4, amended: no live Python statement of any notebook writes to
disk — every `writeFits` occurrence is commented out (no `writeFits` call
appears), pickle is only ever used to load (no `pickle.dump` appears while
`pickle.load` does) — and the only statement whose execution changes the
filesystem is the package-installing shell escape of the NB5 set-up cell;
running every other statement leaves any filesystem state unchanged. -/
theorem claim_C4_amended :
    "writeFits" ∉ allCallNames ∧
    "pickle.dump" ∉ allCallNames ∧
    "pickle.load" ∈ allCallNames ∧
    (∀ b ∈ allBasics, writesFs b = true →
      b = .shell setupShellCmd ∧ b.isShellEscape = true) ∧
    (∀ fs, runFs (allBasics.filter fun b => !(writesFs b)) fs = fs) := by
  refine ⟨by decide, by decide, by decide, by decide, fun fs => ?_⟩
  refine runFs_of_no_writes _ (fun b hb => ?_) fs
  have := (List.mem_filter.mp hb).2
  simpa using this

/-- Witness for claim C4 (amended), at the install shell escape. -/
theorem claim_C4_witness :
    (BasicStmt.shell setupShellCmd).isShellEscape = true :=
  (claim_C4_amended.2.2.2.1 (.shell setupShellCmd) (by decide) (by decide)).2

/-- Counterexample to claim C10 as stated: code original to the repository
does create processes — every IPython `!` shell escape (for example the
`echo $HOSTNAME` cell) runs its command line in a spawned subshell, a
child process of the kernel. -/
theorem claim_C10_counterexample :
    (allBasics.all fun b => !(createsProcess b)) = false ∧
    createsProcess (.shell "echo $HOSTNAME") = true ∧
    BasicStmt.shell "echo $HOSTNAME" ∈ allBasics :=
  ⟨by decide, by decide, by decide⟩

/-- Claim C10, amended: no statement of any notebook creates a thread or
initiates asynchronous execution, and the only process creation is by the
IPython `!` shell escapes, which run synchronously (the kernel blocks
until the spawned command exits), so notebook-cell evaluation remains
single-threaded and synchronous. -/
theorem claim_C10_amended :
    (∀ b ∈ allBasics, createsThread b = false) ∧
    (∀ b ∈ allBasics, initiatesAsync b = false) ∧
    (∀ b ∈ allBasics, createsProcess b = true → b.isShellEscape = true) := by
  refine ⟨by decide, by decide, by decide⟩

/-- Witness for claim C10 (amended), at the `echo $HOSTNAME` shell escape. -/
theorem claim_C10_witness :
    (BasicStmt.shell "echo $HOSTNAME").isShellEscape = true :=
  claim_C10_amended.2.2 (.shell "echo $HOSTNAME") (by decide) (by decide)

/-- Helper: membership is preserved by `sort | uniq` / `np.unique`. -/
theorem mem_sortUniq {p : FsPath} {l : List FsPath} : p ∈ sortUniq l ↔ p ∈ l := by
  unfold sortUniq
  rw [(List.perm_insertionSort _ _).mem_iff, List.mem_dedup]

/-- Helper: `sort | uniq` / `np.unique` output is sorted. -/
theorem sorted_sortUniq (l : List FsPath) : List.Sorted (· ≤ ·) (sortUniq l) :=
  List.sorted_insertionSort _ _

/-- Helper: `sort | uniq` / `np.unique` output has no duplicates. -/
theorem nodup_sortUniq (l : List FsPath) : (sortUniq l).Nodup :=
  (List.perm_insertionSort _ _).nodup_iff.mpr l.nodup_dedup

/-- Helper: the README filter on a listed entry `dir/marker` only depends
on the directory when the marker name does not itself contain README. -/
theorem entryMatchesReadme_append (p : FsPath) (m : String)
    (hm : containsSub m "README" = false) :
    entryMatchesReadme (p ++ [m]) = entryMatchesReadme p := by
  simp [entryMatchesReadme, List.any_append, hm]

/-- Helper: membership in one discovery pipeline, for a marker name not
containing README and directories of the glob depth. -/
theorem mem_discoverWith {k : Nat} {dirs : List FsDir} {marker : String} {p : FsPath}
    (hk : ∀ d ∈ dirs, d.path.length = k)
    (hm : containsSub marker "README" = false) :
    p ∈ discoverWith k dirs marker ↔
      ∃ d ∈ dirs, d.files.contains marker = true ∧
        entryMatchesReadme d.path = false ∧ d.path = p := by
  unfold discoverWith lsMarker
  rw [mem_sortUniq]
  simp only [List.mem_map, List.mem_filter]
  constructor
  · rintro ⟨e, ⟨⟨d, ⟨hd, hfiles⟩, rfl⟩, hread⟩, rfl⟩
    have hr : entryMatchesReadme d.path = false := by
      rw [entryMatchesReadme_append d.path marker hm] at hread
      simpa using hread
    refine ⟨d, hd, hfiles, hr, ?_⟩
    rw [← hk d hd]
    exact (List.take_left d.path [marker]).symm
  · rintro ⟨d, hd, hfiles, hread, rfl⟩
    refine ⟨d.path ++ [marker], ⟨⟨d, ⟨hd, hfiles⟩, rfl⟩, ?_⟩, ?_⟩
    · rw [entryMatchesReadme_append d.path marker hm, hread]
      rfl
    · rw [← hk d hd]
      exact List.take_left d.path [marker]

/-- Claim C6: the repository-discovery cells recognize a directory as a
butler-friendly data repository exactly when its top level contains a
marker file named `_mapper` or a file named `repositoryCfg.yaml` (entries
matching README excluded), and the resulting repository list — `np.unique`
over the concatenation of the two listings — is sorted and duplicate-free.
`k` is the path depth fixed by the glob (5 components for
`/project/shared/data/*`, 4 for `/datasets/*/repo`). -/
theorem claim_C6_repo_discovery (k : Nat) (dirs : List FsDir)
    (hk : ∀ d ∈ dirs, d.path.length = k) :
    (∀ p, p ∈ discoverRepos k dirs ↔
      ∃ d ∈ dirs, d.path = p ∧ entryMatchesReadme d.path = false ∧
        (d.files.contains "_mapper" = true ∨
          d.files.contains "repositoryCfg.yaml" = true)) ∧
    List.Sorted (· ≤ ·) (discoverRepos k dirs) ∧
    (discoverRepos k dirs).Nodup := by
  refine ⟨fun p => ?_, sorted_sortUniq _, nodup_sortUniq _⟩
  unfold discoverRepos
  rw [mem_sortUniq, List.mem_append,
    mem_discoverWith hk (by decide), mem_discoverWith hk (by decide)]
  constructor
  · rintro (⟨d, hd, hfiles, hread, rfl⟩ | ⟨d, hd, hfiles, hread, rfl⟩)
    · exact ⟨d, hd, rfl, hread, Or.inl hfiles⟩
    · exact ⟨d, hd, rfl, hread, Or.inr hfiles⟩
  · rintro ⟨d, hd, rfl, hread, hfiles | hfiles⟩
    · exact Or.inl ⟨d, hd, hfiles, hread, rfl⟩
    · exact Or.inr ⟨d, hd, hfiles, hread, rfl⟩

/-- A concrete glob result used to witness claim C6: two repositories with
markers, a README-matching directory, and a plain directory. -/
def c6dirs : List FsDir :=
  [⟨["", "project", "shared", "data", "repoB"], ["repositoryCfg.yaml", "data.fits"]⟩,
   ⟨["", "project", "shared", "data", "repoA"], ["_mapper", "raw"]⟩,
   ⟨["", "project", "shared", "data", "READMEdir"], ["_mapper"]⟩,
   ⟨["", "project", "shared", "data", "plain"], ["notes.txt"]⟩]

/-- Witness for claim C6 at a concrete glob result. -/
theorem claim_C6_witness :
    List.Sorted (· ≤ ·) (discoverRepos 5 c6dirs) ∧ (discoverRepos 5 c6dirs).Nodup :=
  ⟨(claim_C6_repo_discovery 5 c6dirs (by decide)).2.1,
   (claim_C6_repo_discovery 5 c6dirs (by decide)).2.2⟩

end StackClub
